import Mathlib

/-!
Formal model of the Lumina generation orchestration and persistence core.

The definitions below are a shallow embedding of the repository's code:
- `src/src/services/geminiService.ts` (provider gateway, video poller),
- the React `App` component (mode dispatcher `handleGenerate`, history
  synchronizer `fetchHistory` / `deleteHistoryItem`, result materializer),
- the Express server (`/api/history` GET/POST/DELETE over SQLite).

JavaScript truthiness on strings (empty string is falsy) and on optional
values (null/undefined are falsy) is modelled explicitly; remote calls are
modelled by oracles fixing each provider response, and the video polling
loop is modelled with explicit fuel (the source loop has no bound).
-/

namespace Lumina

/-- JS string truthiness: a string is truthy iff it is non-empty. -/
def strTruthy (s : String) : Bool := decide (s ≠ "")

/-- JS truthiness of a nullable string (null/undefined are falsy). -/
def optStrTruthy : Option String → Bool
  | some s => strTruthy s
  | none => false

/-- JS `x || d` for a nullable string `x`. -/
def jsOrStr (x : Option String) (d : String) : String :=
  match x with
  | some s => if s = "" then d else s
  | none => d

/-- JS `s || d` for a plain string `s`. -/
def strOr (s d : String) : String := if s = "" then d else s

/-- JS `String.prototype.includes` on character lists. -/
def listIncludes (pat : List Char) : List Char → Bool
  | [] => pat.isEmpty
  | c :: t => pat.isPrefixOf (c :: t) || listIncludes pat t

/-- JS `s.includes(pat)`. -/
def strIncludes (s pat : String) : Bool := listIncludes pat.data s.data

/-- JS `s.startsWith(pre)` (modelled on character lists). -/
def jsStartsWith (s pre : String) : Bool := pre.data.isPrefixOf s.data

/-- The base64 alphabet. -/
def b64alphabet : String :=
  "ABCDEFGHIJKLMNOPQRSTUVWXYZabcdefghijklmnopqrstuvwxyz0123456789+/"

/-- The base64 digit for an index below 64. -/
def b64char (n : Nat) : String := (b64alphabet.drop n).take 1

/-- Base64 encoding of a byte list (bytes are naturals below 256),
used to model `FileReader.readAsDataURL` re-encoding of a fetched blob. -/
def b64encode : List Nat → String
  | [] => ""
  | [a] => b64char (a / 4 % 64) ++ b64char (a % 4 * 16) ++ "=="
  | [a, b] =>
    b64char (a / 4 % 64) ++ b64char (a % 4 * 16 + b / 16 % 16) ++
      b64char (b % 16 * 4) ++ "="
  | a :: b :: c :: rest =>
    b64char (a / 4 % 64) ++ b64char (a % 4 * 16 + b / 16 % 16) ++
      b64char (b % 16 * 4 + c / 64 % 4) ++ b64char (c % 64) ++ b64encode rest

/-- A data URI as produced by `readAsDataURL`: mime-tagged base64 payload. -/
def dataUriStr (mime payload : String) : String :=
  "data:" ++ mime ++ ";base64," ++ payload

/-- The eight UI modes of the dispatcher (`type Mode` in the app). -/
inductive Mode where
  | imageEdit | videoGen | analyze | speech | transcribe
  | generateImage | research | summarize
deriving DecidableEq, Repr

/-- The string form of a mode, as interpolated into messages. -/
def modeStr : Mode → String
  | .imageEdit => "image-edit"
  | .videoGen => "video-gen"
  | .analyze => "analyze"
  | .speech => "speech"
  | .transcribe => "transcribe"
  | .generateImage => "generate-image"
  | .research => "research"
  | .summarize => "summarize"

/-- An uploaded image or recorded audio clip: base64 payload plus MIME type. -/
structure Media where
  data : String
  mimeType : String
deriving DecidableEq, Repr

/-- A citation pair as built by `researchWithSearch`
(`title` defaulted to "Source", `uri` possibly absent before filtering). -/
structure JsSource where
  title : String
  uri : Option String
deriving DecidableEq, Repr

/-- The client-side `GenerationResult` record. -/
structure GenerationResult where
  id : Option Nat
  rtype : String
  url : String
  prompt : String
  text : Option String
  sources : Option (List JsSource)
deriving DecidableEq, Repr

/-- The React state consulted and mutated by `handleGenerate`. -/
structure AppState where
  prompt : String
  uploadedImage : Option Media
  recordedAudio : Option Media
  hasKey : Bool
  results : List GenerationResult
  error : Option String
deriving DecidableEq, Repr

/-- Ambient configuration: the locally saved key and the two env variables. -/
structure Env where
  savedKey : Option String
  apiKeyEnv : Option String
  geminiApiKey : Option String
deriving DecidableEq, Repr

/-- `getApiKey` from geminiService.ts: a saved local key is preferred,
then `process.env.API_KEY`, then `process.env.GEMINI_API_KEY`, then "". -/
def getApiKey (savedKey apiKeyEnv geminiApiKey : Option String) : String :=
  match savedKey with
  | some k => if k = "" then jsOrStr apiKeyEnv (jsOrStr geminiApiKey "") else k
  | none => jsOrStr apiKeyEnv (jsOrStr geminiApiKey "")

/-- Inline binary data inside a provider response part. -/
structure InlineData where
  data : String
  mimeType : String
deriving DecidableEq, Repr

/-- One part of a provider response candidate. -/
structure RespPart where
  inlineData : Option InlineData
deriving DecidableEq, Repr

/-- The `web` field of a grounding chunk. -/
structure WebInfo where
  title : Option String
  uri : Option String
deriving DecidableEq, Repr

/-- A grounding chunk of the research response. -/
structure Chunk where
  web : Option WebInfo
deriving DecidableEq, Repr

/-- A provider response, as far as the gateway inspects it:
`candidates[0].content.parts`, `response.text`, and grounding chunks. -/
structure ProviderResponse where
  parts : List RespPart
  text : Option String
  chunks : Option (List Chunk)
deriving DecidableEq, Repr

/-- Scan of `candidates[0].content.parts` for the first inline image,
returned as a data URI (shared by editImage / generateImage). -/
def firstInlineUri : List RespPart → Option String
  | [] => none
  | p :: rest =>
    match p.inlineData with
    | some d => some (dataUriStr d.mimeType d.data)
    | none => firstInlineUri rest

/-- `editImage`: returns the first inline image part as a data URI, or null;
the catch block rethrows provider errors unchanged. -/
def editImageModel (resp : Except String ProviderResponse) :
    Except String (Option String) :=
  resp.map (fun r => firstInlineUri r.parts)

/-- `generateImage`: same result scan as `editImage`. -/
def generateImageModel (resp : Except String ProviderResponse) :
    Except String (Option String) :=
  resp.map (fun r => firstInlineUri r.parts)

/-- `analyzeImage`: `response.text || "No analysis generated."`. -/
def analyzeImageModel (resp : Except String ProviderResponse) :
    Except String String :=
  resp.map (fun r => jsOrStr r.text "No analysis generated.")

/-- `transcribeAudio`: `response.text || "No transcription generated."`. -/
def transcribeAudioModel (resp : Except String ProviderResponse) :
    Except String String :=
  resp.map (fun r => jsOrStr r.text "No transcription generated.")

/-- `summarizeUrl`: `response.text || "Failed to summarize URL."`. -/
def summarizeUrlModel (resp : Except String ProviderResponse) :
    Except String String :=
  resp.map (fun r => jsOrStr r.text "Failed to summarize URL.")

/-- `generateSpeech`: first part inline data, wrapped as an audio data URI
when truthy, otherwise null. -/
def generateSpeechModel (resp : Except String ProviderResponse) :
    Except String (Option String) :=
  resp.map (fun r =>
    let b64Audio := (r.parts.head?.bind (fun p => p.inlineData)).map
      (fun d => d.data)
    if optStrTruthy b64Audio then
      some ("data:audio/wav;base64," ++ b64Audio.getD "")
    else none)

/-- `researchWithSearch`: maps grounding chunks to citation pairs with
`title` defaulted to "Source", then drops entries whose `uri` is falsy;
text is `response.text || "No research results."`. -/
def researchModel (resp : Except String ProviderResponse) :
    Except String (String × List JsSource) :=
  resp.map (fun r =>
    let sources :=
      ((r.chunks.getD []).map (fun c =>
        { title := jsOrStr (c.web.bind (fun w => w.title)) "Source"
          uri := c.web.bind (fun w => w.uri) : JsSource })).filter
        (fun s => optStrTruthy s.uri)
    (jsOrStr r.text "No research results.", sources))

/-- An in-flight video operation handle: provider-reported `done` flag,
the asset uri exposed once available, and an opaque token identifying the
handle to the fake provider. -/
structure VideoOperation where
  done : Bool
  videoUri : Option String
  tag : Nat
deriving DecidableEq, Repr

/-- An HTTP request as issued by the authenticated video download. -/
structure HttpRequest where
  url : String
  headers : List (String × String)
deriving DecidableEq, Repr

/-- The download response: ok flag, body bytes and content type. -/
structure DownloadResponse where
  ok : Bool
  bytes : List Nat
  mime : String
deriving DecidableEq, Repr

/-- The session blob registry backing `URL.createObjectURL` /
`fetch(blobUrl)`: blob url, bytes and MIME type per entry. -/
structure BlobStore where
  items : List (String × List Nat × String)
deriving DecidableEq, Repr

/-- `URL.createObjectURL`: registers the bytes and returns a fresh
session-scoped `blob:` url. -/
def createObjectURL (blobs : BlobStore) (bytes : List Nat) (mime : String) :
    String × BlobStore :=
  let u := "blob:vid-" ++ toString blobs.items.length
  (u, ⟨blobs.items ++ [(u, bytes, mime)]⟩)

/-- `fetch` on a `blob:` url: resolves it in the session registry. -/
def blobLookup (blobs : BlobStore) (url : String) :
    Option (List Nat × String) :=
  blobs.items.lookup url

/-- The authenticated download request issued after polling finishes:
exactly the download link as url, with the provider key passed as the
`x-goog-api-key` header (`apiKey || ""`), never as a query parameter. -/
def mkDownloadReq (apiKey uri : String) : HttpRequest :=
  { url := uri, headers := [("x-goog-api-key", strOr apiKey "")] }

/-- The catch block of `generateVideo`: an error whose message includes
"Requested entity was not found" is rethrown as `API_KEY_EXPIRED`. -/
def videoCatch (e : String) : String :=
  if strIncludes e "Requested entity was not found" = true then
    "API_KEY_EXPIRED"
  else e

/-- The polling loop of `generateVideo` with explicit fuel: while the
handle is not done, re-query the provider and replace the handle with the
refreshed one. Returns the number of status queries performed, and either
the final (done) handle, a provider error, or `none` when the fuel ran
out with the loop still running (the source imposes no bound). -/
def pollLoop (refresh : VideoOperation → Except String VideoOperation) :
    Nat → VideoOperation → Nat × Except String (Option VideoOperation)
  | 0, op => if op.done then (0, Except.ok (some op)) else (0, Except.ok none)
  | Nat.succ f, op =>
    if op.done then (0, Except.ok (some op)) else
      match refresh op with
      | Except.error e => (1, Except.error e)
      | Except.ok op2 =>
        let r := pollLoop refresh f op2
        (r.1 + 1, r.2)

/-- Network events observable by the environment. -/
inductive NetEvent where
  | providerCall (op : String)
  | videoStatusQuery
  | download (req : HttpRequest)
  | blobFetch (url : String)
  | storeCreate
  | storeDelete (id : Nat)
deriving DecidableEq, Repr

/-- Outcome of the modelled `generateVideo`. -/
inductive VideoOut where
  | okUrl (url : Option String) (blobs : BlobStore)
  | err (e : String)
  | looping
deriving DecidableEq, Repr

/-- `generateVideo`: issue the initial request, poll until done (replacing
the handle each iteration), read the download link, fetch it with the key
in a header, and return a fresh session blob url; errors that report the
credential as not found become `API_KEY_EXPIRED` in the catch block. -/
def generateVideoModel (apiKey : String)
    (issue : Except String VideoOperation)
    (refresh : VideoOperation → Except String VideoOperation)
    (download : HttpRequest → DownloadResponse)
    (blobs : BlobStore) (fuel : Nat) : VideoOut × List NetEvent :=
  match issue with
  | Except.error e => (VideoOut.err (videoCatch e),
      [NetEvent.providerCall "generateVideos"])
  | Except.ok op0 =>
    let polled := pollLoop refresh fuel op0
    let evs := NetEvent.providerCall "generateVideos" ::
      List.replicate polled.1 NetEvent.videoStatusQuery
    match polled.2 with
    | Except.error e => (VideoOut.err (videoCatch e), evs)
    | Except.ok none => (VideoOut.looping, evs)
    | Except.ok (some fin) =>
      if optStrTruthy fin.videoUri = false then (VideoOut.okUrl none blobs, evs)
      else
        let req := mkDownloadReq apiKey (fin.videoUri.getD "")
        let resp := download req
        let evs2 := evs ++ [NetEvent.download req]
        if resp.ok then
          let created := createObjectURL blobs resp.bytes resp.mime
          (VideoOut.okUrl (some created.1) created.2, evs2)
        else (VideoOut.err (videoCatch "Failed to download video"), evs2)

/-- A persisted history row of the SQLite `history` table. -/
structure Row where
  id : Nat
  rtype : String
  data : String
  prompt : String
  text : Option String
  sources : Option String
  timestamp : Nat
deriving DecidableEq, Repr

/-- The durable store: rows in insertion order plus the autoincrement
counter. -/
structure Store where
  rows : List Row
  nextId : Nat
deriving DecidableEq, Repr

/-- The body of a `POST /api/history` request. -/
structure CreateBody where
  rtype : String
  data : String
  prompt : String
  text : Option String
  sources : Option (List JsSource)
deriving DecidableEq, Repr

/-- The JSON object answered by a successful `POST /api/history`
(it echoes the unserialized sources). -/
structure SavedItem where
  id : Nat
  rtype : String
  data : String
  prompt : String
  text : Option String
  sources : Option (List JsSource)
deriving DecidableEq, Repr

/-- JSON string escaping of backslash and double quote. -/
def jsonEscape (s : String) : String :=
  (s.replace "\\" "\\\\").replace "\"" "\\\""

/-- A JSON string literal. -/
def jsonQuote (s : String) : String := "\"" ++ jsonEscape s ++ "\""

/-- `JSON.stringify` of the citation list (an object key whose value is
undefined is omitted). -/
def serializeSources (l : List JsSource) : String :=
  "[" ++ String.intercalate "," (l.map (fun s =>
    "\x7b\"title\":" ++ jsonQuote s.title ++
      (match s.uri with
       | some u => ",\"uri\":" ++ jsonQuote u
       | none => "") ++ "\x7d")) ++ "]"

/-- Strip a JSON string literal back to its contents. -/
def unquote (x : String) : String :=
  if jsStartsWith x "\"" then (x.drop 1).dropRight 1 else x

/-- `JSON.parse` of a serialized citation list, for the formats produced
by `serializeSources`. -/
def parseSources (s : String) : List JsSource :=
  let inner := (s.drop 1).dropRight 1
  if inner = "" then [] else
    (inner.splitOn "\x7d,\x7b").map (fun piece =>
      let body := (piece.replace "\x7b" "").replace "\x7d" ""
      match body.splitOn ",\"uri\":" with
      | [t] => { title := unquote (t.replace "\"title\":" ""), uri := none }
      | t :: u :: _ =>
        { title := unquote (t.replace "\"title\":" ""), uri := some (unquote u) }
      | [] => { title := "", uri := none })

/-- `POST /api/history`: reject when `type`, `data` or `prompt` is falsy
(empty string included), else insert the row with the current timestamp
and answer the saved item carrying the assigned id. -/
def serverCreate (store : Store) (now : Nat) (b : CreateBody) :
    Store × Except String SavedItem :=
  if b.rtype = "" ∨ b.data = "" ∨ b.prompt = "" then
    (store, Except.error "Missing required fields")
  else
    let row : Row :=
      { id := store.nextId, rtype := b.rtype, data := b.data,
        prompt := b.prompt, text := b.text,
        sources := b.sources.map serializeSources, timestamp := now }
    ({ rows := store.rows ++ [row], nextId := store.nextId + 1 },
      Except.ok
        { id := store.nextId, rtype := b.rtype, data := b.data,
          prompt := b.prompt, text := b.text, sources := b.sources })

/-- Insert a row into a timestamp-descending list, keeping earlier-scanned
rows first among equal timestamps. -/
def insertByTs (r : Row) : List Row → List Row
  | [] => [r]
  | x :: xs =>
    if x.timestamp < r.timestamp then r :: x :: xs else x :: insertByTs r xs

/-- `ORDER BY timestamp DESC` over the table scan: a stable descending
sort by timestamp (ties stay in table order, which SQL leaves
unspecified). -/
def sortTsDesc (rows : List Row) : List Row :=
  rows.foldl (fun acc r => insertByTs r acc) []

/-- `GET /api/history`: all rows ordered by timestamp descending. -/
def serverList (store : Store) : List Row := sortTsDesc store.rows

/-- `DELETE /api/history/:id`: delete the matching row if any and answer
success regardless of whether a row existed. -/
def serverDelete (store : Store) (id : Nat) : Store × Bool :=
  ({ store with rows := store.rows.filter (fun r => r.id ≠ id) }, true)

/-- The mapping applied by `fetchHistory` to each fetched row
(the DB `data` column becomes the UI `url`, sources are parsed). -/
def rowToResult (r : Row) : GenerationResult :=
  { id := some r.id, rtype := r.rtype, url := r.data, prompt := r.prompt,
    text := r.text, sources := r.sources.map parseSources }

/-- The mapping applied to the `POST` response when building the new
in-memory entry. -/
def savedToResult (s : SavedItem) : GenerationResult :=
  { id := some s.id, rtype := s.rtype, url := s.data, prompt := s.prompt,
    text := s.text, sources := s.sources }

/-- `fetchHistory`: on a network exception (`none`) or a non-ok status the
previous in-memory snapshot and the error banner are left untouched; on
success the in-memory list is wholly replaced by the mapped rows. -/
def fetchHistoryModel (prev : List GenerationResult) (err : Option String)
    (resp : Option (Bool × List Row)) :
    List GenerationResult × Option String :=
  match resp with
  | none => (prev, err)
  | some (ok, rows) => if ok then (rows.map rowToResult, err) else (prev, err)

/-- `deleteHistoryItem`: issue the DELETE; on a successful response filter
the in-memory list by id. -/
def deleteHistoryItemModel (store : Store) (results : List GenerationResult)
    (id : Nat) : Store × List GenerationResult × Bool :=
  let deleted := serverDelete store id
  if deleted.2 then
    (deleted.1, results.filter (fun r => r.id ≠ some id), true)
  else (deleted.1, results, false)

/-- The create-and-prepend idiom of the app: `POST /api/history` and, on an
ok response, prepend the saved entry to the in-memory list. -/
def clientCreate (store : Store) (results : List GenerationResult)
    (body : CreateBody) (now : Nat) : Store × List GenerationResult :=
  let created := serverCreate store now body
  match created.2 with
  | Except.ok saved => (created.1, savedToResult saved :: results)
  | Except.error _ => (created.1, results)

/-- Modes whose generation requires non-empty prompt text. -/
def promptRequired : Mode → Bool
  | .videoGen | .speech | .generateImage | .research | .summarize => true
  | _ => false

/-- Modes whose generation requires an uploaded image. -/
def imageRequired : Mode → Bool
  | .imageEdit | .analyze => true
  | _ => false

/-- Modes whose generation requires recorded audio. -/
def audioRequired : Mode → Bool
  | .transcribe => true
  | _ => false

/-- The prompt-missing message, interpolating the mode. -/
def promptMissingMsg (mode : Mode) : String :=
  "Please enter a prompt or URL for " ++ modeStr mode ++ " generation."

/-- The validation message raised for a mode when its required input is
missing. -/
def validationMsg (mode : Mode) : String :=
  if promptRequired mode then promptMissingMsg mode
  else if imageRequired mode then "Please upload an image."
  else "Please record some audio first."

/-- Whether the mode-specific required input is missing from the state. -/
def requiredInputMissing (mode : Mode) (st : AppState) : Bool :=
  if promptRequired mode then decide (st.prompt = "")
  else if imageRequired mode then st.uploadedImage.isNone
  else st.recordedAudio.isNone

/-- The three validation guards at the top of `handleGenerate`, in source
order; a hit sets the inline error and returns before any network call. -/
def validateInputs (mode : Mode) (st : AppState) : Option String :=
  if st.prompt = "" ∧ promptRequired mode = true then
    some (promptMissingMsg mode)
  else if st.uploadedImage = none ∧ imageRequired mode = true then
    some "Please upload an image."
  else if st.recordedAudio = none ∧ audioRequired mode = true then
    some "Please record some audio first."
  else none

/-- The default prompt label used when the prompt is empty at persist
time. -/
def defaultLabel (mode : Mode) : String :=
  if mode = Mode.imageEdit then "Image Edit"
  else if mode = Mode.analyze then "Image Analysis"
  else "Generation"

/-- Oracle fixing every remote interaction of one generation request. -/
structure ProviderOracle where
  editResp : Except String ProviderResponse
  genImageResp : Except String ProviderResponse
  analyzeResp : Except String ProviderResponse
  speechResp : Except String ProviderResponse
  transcribeResp : Except String ProviderResponse
  researchResp : Except String ProviderResponse
  summarizeResp : Except String ProviderResponse
  videoIssue : Except String VideoOperation
  videoRefresh : VideoOperation → Except String VideoOperation
  videoDownload : HttpRequest → DownloadResponse
  keyDialogSelected : Bool
  videoFuel : Nat

/-- The partial result accumulated by the dispatch branches (initial
values: null url, undefined text and sources, type `image`). -/
structure DispatchResult where
  url : Option String
  text : Option String
  sources : Option (List JsSource)
  rtype : String
deriving DecidableEq, Repr

/-- Outcome of the mode dispatch inside the `try` block. -/
inductive DispatchOut where
  | ok (d : DispatchResult) (blobs : BlobStore)
  | fail (e : String)
  | looping
deriving DecidableEq, Repr

/-- The dispatch branch ladder of `handleGenerate`: one gateway call per
mode (guarded by input presence exactly as in the source; when no branch
fires the initial values are kept). -/
def dispatch (mode : Mode) (st : AppState) (env : Env) (p : ProviderOracle)
    (blobs : BlobStore) : DispatchOut × List NetEvent :=
  match mode with
  | Mode.imageEdit =>
    match st.uploadedImage with
    | some _ =>
      (match editImageModel p.editResp with
       | Except.error e => (DispatchOut.fail e, [NetEvent.providerCall "editImage"])
       | Except.ok u =>
         (DispatchOut.ok { url := u, text := none, sources := none, rtype := "image" } blobs,
          [NetEvent.providerCall "editImage"]))
    | none =>
      (DispatchOut.ok { url := none, text := none, sources := none, rtype := "image" } blobs, [])
  | Mode.videoGen =>
    let apiKey := getApiKey env.savedKey env.apiKeyEnv env.geminiApiKey
    match generateVideoModel apiKey p.videoIssue p.videoRefresh
        p.videoDownload blobs p.videoFuel with
    | (VideoOut.okUrl u blobs2, evs) =>
      (DispatchOut.ok { url := u, text := none, sources := none, rtype := "video" } blobs2, evs)
    | (VideoOut.err e, evs) => (DispatchOut.fail e, evs)
    | (VideoOut.looping, evs) => (DispatchOut.looping, evs)
  | Mode.analyze =>
    match st.uploadedImage with
    | some img =>
      (match analyzeImageModel p.analyzeResp with
       | Except.error e => (DispatchOut.fail e, [NetEvent.providerCall "analyzeImage"])
       | Except.ok t =>
         (DispatchOut.ok
            { url := some (dataUriStr img.mimeType img.data), text := some t,
              sources := none, rtype := "analysis" } blobs,
          [NetEvent.providerCall "analyzeImage"]))
    | none =>
      (DispatchOut.ok { url := none, text := none, sources := none, rtype := "image" } blobs, [])
  | Mode.speech =>
    (match generateSpeechModel p.speechResp with
     | Except.error e => (DispatchOut.fail e, [NetEvent.providerCall "generateSpeech"])
     | Except.ok u =>
       (DispatchOut.ok { url := u, text := none, sources := none, rtype := "audio" } blobs,
        [NetEvent.providerCall "generateSpeech"]))
  | Mode.transcribe =>
    match st.recordedAudio with
    | some aud =>
      (match transcribeAudioModel p.transcribeResp with
       | Except.error e => (DispatchOut.fail e, [NetEvent.providerCall "transcribeAudio"])
       | Except.ok t =>
         (DispatchOut.ok
            { url := some (dataUriStr aud.mimeType aud.data), text := some t,
              sources := none, rtype := "transcription" } blobs,
          [NetEvent.providerCall "transcribeAudio"]))
    | none =>
      (DispatchOut.ok { url := none, text := none, sources := none, rtype := "image" } blobs, [])
  | Mode.generateImage =>
    (match generateImageModel p.genImageResp with
     | Except.error e => (DispatchOut.fail e, [NetEvent.providerCall "generateImage"])
     | Except.ok u =>
       (DispatchOut.ok { url := u, text := none, sources := none, rtype := "image" } blobs,
        [NetEvent.providerCall "generateImage"]))
  | Mode.research =>
    (match researchModel p.researchResp with
     | Except.error e => (DispatchOut.fail e, [NetEvent.providerCall "researchWithSearch"])
     | Except.ok ts =>
       (DispatchOut.ok
          { url := some "", text := some ts.1, sources := some ts.2,
            rtype := "research" } blobs,
        [NetEvent.providerCall "researchWithSearch"]))
  | Mode.summarize =>
    (match summarizeUrlModel p.summarizeResp with
     | Except.error e => (DispatchOut.fail e, [NetEvent.providerCall "summarizeUrl"])
     | Except.ok t =>
       (DispatchOut.ok
          { url := some "", text := some t, sources := none,
            rtype := "summary" } blobs,
        [NetEvent.providerCall "summarizeUrl"]))

/-- The result-materializer step of `handleGenerate`: the persisted data is
`resultUrl || ""`, except that a truthy video `blob:` reference is fetched
from the session registry and re-encoded as a data URI; everything else is
passed through unchanged without any fetch. -/
def materializeData (mode : Mode) (blobs : BlobStore) (url : Option String) :
    Except String (String × List NetEvent) :=
  if mode = Mode.videoGen ∧ optStrTruthy url = true ∧
      jsStartsWith (url.getD "") "blob:" = true then
    match blobLookup blobs (url.getD "") with
    | some bm =>
      Except.ok (dataUriStr bm.2 (b64encode bm.1),
        [NetEvent.blobFetch (url.getD "")])
    | none => Except.error "Failed to fetch"
  else Except.ok (jsOrStr url "", [])

/-- Outcome of the `try` block of `handleGenerate`. -/
inductive TryResult where
  | ok (st : AppState) (store : Store) (blobs : BlobStore)
  | err (e : String) (blobs : BlobStore)
  | looping
deriving DecidableEq, Repr

/-- The `try` block of `handleGenerate`: require the env key, dispatch,
reject an all-empty result, materialize, persist, and on an ok response
prepend the saved entry and clear the prompt and the recorded audio. -/
def runTry (mode : Mode) (st : AppState) (env : Env) (p : ProviderOracle)
    (store : Store) (blobs : BlobStore) (now : Nat) :
    TryResult × Store × List NetEvent :=
  if optStrTruthy env.geminiApiKey = false then
    (TryResult.err
      "Gemini API Key is missing. Please configure it in the Secrets panel."
      blobs, store, [])
  else
    match dispatch mode st env p blobs with
    | (DispatchOut.fail e, evs) => (TryResult.err e blobs, store, evs)
    | (DispatchOut.looping, evs) => (TryResult.looping, store, evs)
    | (DispatchOut.ok d blobs2, evs) =>
      if d.url = none ∧ optStrTruthy d.text = false then
        (TryResult.err
          "The AI model returned no content. Please try a different prompt or check your connection."
          blobs2, store, evs)
      else if d.url ≠ none ∨ optStrTruthy d.text = true then
        match materializeData mode blobs2 d.url with
        | Except.error e => (TryResult.err e blobs2, store, evs)
        | Except.ok pm =>
          let body : CreateBody :=
            { rtype := d.rtype, data := pm.1,
              prompt := if st.prompt = "" then defaultLabel mode else st.prompt,
              text := d.text, sources := d.sources }
          let created := serverCreate store now body
          match created.2 with
          | Except.ok saved =>
            (TryResult.ok
              { st with results := savedToResult saved :: st.results,
                        prompt := "", recordedAudio := none }
              created.1 blobs2,
             created.1, evs ++ pm.2 ++ [NetEvent.storeCreate])
          | Except.error _ =>
            (TryResult.ok st created.1 blobs2, created.1,
             evs ++ pm.2 ++ [NetEvent.storeCreate])
      else (TryResult.ok st store blobs2, store, evs)

/-- The full observable outcome of one `handleGenerate` run. -/
structure GenOutcome where
  state : AppState
  store : Store
  blobs : BlobStore
  trace : List NetEvent
  diverged : Bool
deriving Repr

/-- `handleGenerate`: validate, run the Veo credential-selection flow for
video, clear the error banner, run the try block, and map a thrown
`API_KEY_EXPIRED` to the expiry message plus flag reset and every other
error to the generic failure message. -/
def handleGenerate (mode : Mode) (st : AppState) (env : Env)
    (p : ProviderOracle) (store : Store) (blobs : BlobStore) (now : Nat) :
    GenOutcome :=
  match validateInputs mode st with
  | some msg => ⟨{ st with error := some msg }, store, blobs, [], false⟩
  | none =>
    let st1 := if mode = Mode.videoGen ∧ st.hasKey = false then
        { st with hasKey := p.keyDialogSelected } else st
    if mode = Mode.videoGen ∧ st1.hasKey = false then
      ⟨st1, store, blobs, [], false⟩
    else
      let st2 := { st1 with error := none }
      match runTry mode st2 env p store blobs now with
      | (TryResult.ok st3 store3 blobs3, _, evs) =>
        ⟨st3, store3, blobs3, evs, false⟩
      | (TryResult.err e blobs3, store3, evs) =>
        if e = "API_KEY_EXPIRED" then
          let stE := { st2 with hasKey := false, error := some "API Key expired or invalid. Please select a valid paid project key." }
          ⟨stE, store3, blobs3, evs, false⟩
        else
          let stE := { st2 with error := some "Generation failed. Please try again." }
          ⟨stE, store3, blobs3, evs, false⟩
      | (TryResult.looping, store3, evs) => ⟨st2, store3, blobs, evs, true⟩

/-! ## Helper lemmas -/

/-- JS `u || ""` on a present string is the string itself. -/
lemma jsOrStr_some_empty (u : String) : jsOrStr (some u) "" = u := by
  by_cases h : u = "" <;> simp [jsOrStr, h]

/-- JS `s || ""` is the string itself. -/
lemma strOr_empty (s : String) : strOr s "" = s := by
  by_cases h : s = "" <;> simp [strOr, h]

/-- A data URI never carries the `blob:` scheme. -/
lemma dataUri_not_blob (mime payload : String) :
    jsStartsWith (dataUriStr mime payload) "blob:" = false := by
  have hd : (dataUriStr mime payload).data
      = 'd' :: 'a' :: 't' :: 'a' :: ':' ::
        (mime.data ++ (";base64," ++ payload).data) := by
    simp [dataUriStr, String.data_append]
  simp [jsStartsWith, hd, List.isPrefixOf]

/-- A string with the `blob:` scheme is non-empty. -/
lemma blob_ne_empty (u : String) (h : jsStartsWith u "blob:" = true) :
    u ≠ "" := by
  intro he
  subst he
  simp [jsStartsWith, List.isPrefixOf] at h

/-- When the required input of a mode is missing, the validation ladder
answers exactly the message of that mode. -/
lemma validateInputs_of_missing (mode : Mode) (st : AppState)
    (h : requiredInputMissing mode st = true) :
    validateInputs mode st = some (validationMsg mode) := by
  cases mode <;>
    simp [requiredInputMissing, promptRequired, imageRequired,
      audioRequired, Option.isNone_iff_eq_none] at h <;>
    simp [validateInputs, validationMsg, promptRequired, imageRequired,
      audioRequired, promptMissingMsg, h]

/-! ## C1: validation failures never reach the network -/

/-- C1: for every mode, invoking generate with the mode's required input
missing (no uploaded image for image-edit/analyze, empty prompt for
video-gen/generate-image/research/summarize/speech, no recorded audio for
transcribe) sets the mode-specific validation message, issues zero network
calls (no provider call, no store call), and leaves the store and the
in-memory history untouched. -/
theorem generate_validates_before_network
    (mode : Mode) (st : AppState) (env : Env) (p : ProviderOracle)
    (store : Store) (blobs : BlobStore) (now : Nat)
    (h : requiredInputMissing mode st = true) :
    (handleGenerate mode st env p store blobs now).trace = [] ∧
    (handleGenerate mode st env p store blobs now).store = store ∧
    (handleGenerate mode st env p store blobs now).state.error
      = some (validationMsg mode) ∧
    (handleGenerate mode st env p store blobs now).state.results
      = st.results := by
  have hv := validateInputs_of_missing mode st h
  simp [handleGenerate, hv]

/-- Fixture: a provider response with no parts, no text, no chunks. -/
def respEmpty : ProviderResponse := ⟨[], none, none⟩

/-- Fixture: an oracle whose calls all answer the empty response. -/
def oracleIdle : ProviderOracle :=
  { editResp := Except.ok respEmpty, genImageResp := Except.ok respEmpty,
    analyzeResp := Except.ok respEmpty, speechResp := Except.ok respEmpty,
    transcribeResp := Except.ok respEmpty,
    researchResp := Except.ok respEmpty,
    summarizeResp := Except.ok respEmpty,
    videoIssue := Except.ok ⟨true, none, 0⟩,
    videoRefresh := fun op => Except.ok op,
    videoDownload := fun _ => ⟨false, [], ""⟩,
    keyDialogSelected := false, videoFuel := 0 }

/-- Fixture: app state with an empty prompt and no captured media. -/
def stBlank : AppState := ⟨"", none, none, true, [], none⟩

/-- Fixture: environment with only `GEMINI_API_KEY` set. -/
def envFull : Env := ⟨none, none, some "ENVKEY"⟩

/-- Fixture: the empty store. -/
def storeEmpty : Store := ⟨[], 1⟩

/-- Fixture: the empty blob registry. -/
def blobsEmpty : BlobStore := ⟨[]⟩

/-- Witness for C1: research mode with an empty prompt. -/
theorem generate_validates_before_network_witness :
    requiredInputMissing Mode.research stBlank = true ∧
    ((handleGenerate Mode.research stBlank envFull oracleIdle storeEmpty
        blobsEmpty 0).trace = [] ∧
      (handleGenerate Mode.research stBlank envFull oracleIdle storeEmpty
        blobsEmpty 0).store = storeEmpty ∧
      (handleGenerate Mode.research stBlank envFull oracleIdle storeEmpty
        blobsEmpty 0).state.error = some (validationMsg Mode.research) ∧
      (handleGenerate Mode.research stBlank envFull oracleIdle storeEmpty
        blobsEmpty 0).state.results = stBlank.results) :=
  ⟨by decide,
    generate_validates_before_network Mode.research stBlank envFull
      oracleIdle storeEmpty blobsEmpty 0 (by decide)⟩

/-! ## C2: the video poll loop queries exactly N times, then downloads once -/

/-- Against a fake provider whose handle after `i` status queries is `h i`,
not done before query `N` and done at query `N`, the loop performs exactly
`N` status queries and finishes on the handle `h N`, given enough fuel. -/
lemma pollLoop_exact (N : Nat) :
    ∀ (fuel : Nat) (h : Nat → VideoOperation)
      (refresh : VideoOperation → Except String VideoOperation),
      (∀ i, refresh (h i) = Except.ok (h (i + 1))) →
      (∀ i, i < N → (h i).done = false) →
      (h N).done = true → N ≤ fuel →
      pollLoop refresh fuel (h 0) = (N, Except.ok (some (h N))) := by
  induction N with
  | zero =>
    intro fuel h refresh hr hnd hd hf
    cases fuel <;> simp [pollLoop, hd]
  | succ n ih =>
    intro fuel h refresh hr hnd hd hf
    have h0 : (h 0).done = false := hnd 0 (Nat.succ_pos n)
    obtain ⟨f, rfl⟩ : ∃ f, fuel = f + 1 := ⟨fuel - 1, by omega⟩
    have ih2 := ih f (fun i => h (i + 1)) refresh (fun i => hr (i + 1))
      (fun i hi => hnd (i + 1) (by omega)) hd (by omega)
    simp [pollLoop, h0, hr 0, ih2]

/-- C2: if the fake provider reports `done = true` after exactly `N` status
queries (the handle after `i` queries being `h i`, refreshed each
iteration), the poll loop of `generateVideo` performs exactly `N` status
queries, then issues exactly one download of the reported uri; the request
carries the provider key in the `x-goog-api-key` header and uses the
download link verbatim as url (no query parameter added). -/
theorem video_polls_exactly_then_downloads_once
    (N fuel : Nat) (h : Nat → VideoOperation) (apiKey uri : String)
    (refresh : VideoOperation → Except String VideoOperation)
    (download : HttpRequest → DownloadResponse) (blobs : BlobStore)
    (hr : ∀ i, refresh (h i) = Except.ok (h (i + 1)))
    (hnd : ∀ i, i < N → (h i).done = false)
    (hd : (h N).done = true)
    (hu : (h N).videoUri = some uri) (hne : uri ≠ "")
    (hfuel : N ≤ fuel)
    (hok : (download (mkDownloadReq apiKey uri)).ok = true) :
    generateVideoModel apiKey (Except.ok (h 0)) refresh download blobs fuel
      = (VideoOut.okUrl
          (some (createObjectURL blobs
            (download (mkDownloadReq apiKey uri)).bytes
            (download (mkDownloadReq apiKey uri)).mime).1)
          (createObjectURL blobs
            (download (mkDownloadReq apiKey uri)).bytes
            (download (mkDownloadReq apiKey uri)).mime).2,
        NetEvent.providerCall "generateVideos" ::
          (List.replicate N NetEvent.videoStatusQuery ++
            [NetEvent.download (mkDownloadReq apiKey uri)])) ∧
    (mkDownloadReq apiKey uri).url = uri ∧
    (mkDownloadReq apiKey uri).headers = [("x-goog-api-key", apiKey)] := by
  have hp := pollLoop_exact N fuel h refresh hr hnd hd hfuel
  refine ⟨?_, rfl, by simp [mkDownloadReq, strOr_empty]⟩
  simp [generateVideoModel, hp, hu, optStrTruthy, strTruthy, hne, hok]

/-- Fixture for C2: the fake provider handle after `i` status queries,
done from query 2 on. -/
def fakeOps (i : Nat) : VideoOperation :=
  ⟨decide (2 ≤ i), if 2 ≤ i then some "https://dl/v.mp4" else none, i⟩

/-- Fixture for C2: refreshing a fake handle advances its index. -/
def fakeRefresh (op : VideoOperation) : Except String VideoOperation :=
  Except.ok (fakeOps (op.tag + 1))

/-- Fixture for C2: a download that succeeds with a three-byte body. -/
def fakeDownload (_ : HttpRequest) : DownloadResponse :=
  ⟨true, [77, 97, 110], "video/mp4"⟩

/-- Witness for C2 at N = 2 with fuel 5. -/
theorem video_polls_exactly_then_downloads_once_witness :
    (∀ i, fakeRefresh (fakeOps i) = Except.ok (fakeOps (i + 1))) ∧
    (∀ i, i < 2 → (fakeOps i).done = false) ∧
    (fakeOps 2).done = true ∧
    (generateVideoModel "KEY" (Except.ok (fakeOps 0)) fakeRefresh
        fakeDownload blobsEmpty 5
      = (VideoOut.okUrl
          (some (createObjectURL blobsEmpty
            (fakeDownload (mkDownloadReq "KEY" "https://dl/v.mp4")).bytes
            (fakeDownload (mkDownloadReq "KEY" "https://dl/v.mp4")).mime).1)
          (createObjectURL blobsEmpty
            (fakeDownload (mkDownloadReq "KEY" "https://dl/v.mp4")).bytes
            (fakeDownload (mkDownloadReq "KEY" "https://dl/v.mp4")).mime).2,
        NetEvent.providerCall "generateVideos" ::
          (List.replicate 2 NetEvent.videoStatusQuery ++
            [NetEvent.download (mkDownloadReq "KEY" "https://dl/v.mp4")])) ∧
      (mkDownloadReq "KEY" "https://dl/v.mp4").url = "https://dl/v.mp4" ∧
      (mkDownloadReq "KEY" "https://dl/v.mp4").headers
        = [("x-goog-api-key", "KEY")]) :=
  ⟨fun i => rfl,
   fun i hi => by interval_cases i <;> rfl,
   rfl,
   video_polls_exactly_then_downloads_once 2 5 fakeOps "KEY"
     "https://dl/v.mp4" fakeRefresh fakeDownload blobsEmpty
     (fun i => rfl) (fun i hi => by interval_cases i <;> rfl) rfl rfl
     (by decide) (by decide) rfl⟩

/-! ## C3: history ordering is timestamp-derived at list time -/

/-- Fixture: an image create body with prompt "A". -/
def bodyA : CreateBody := ⟨"image", "data:image/png;base64,AA", "A", none, none⟩

/-- Fixture: an image create body with prompt "B". -/
def bodyB : CreateBody := ⟨"image", "data:image/png;base64,AA", "B", none, none⟩

/-- Fixture: an image create body with prompt "C". -/
def bodyC : CreateBody := ⟨"image", "data:image/png;base64,AA", "C", none, none⟩

/-- C3 counterexample: the list endpoint orders by the stored timestamp at
query time (`ORDER BY timestamp DESC`), not by insertion order. Creating
A, then B, then C while the database clock reads 10, then 5, then 3 (a
clock step-back), `list()` answers [A, B, C] — not [C, B, A] as the claim
states for every create sequence. -/
theorem history_newest_first_counterexample :
    (let s1 := clientCreate storeEmpty [] bodyA 10
     let s2 := clientCreate s1.1 s1.2 bodyB 5
     let s3 := clientCreate s2.1 s2.2 bodyC 3
     serverList s3.1
       ≠ [⟨3, "image", "data:image/png;base64,AA", "C", none, none, 3⟩,
          ⟨2, "image", "data:image/png;base64,AA", "B", none, none, 5⟩,
          ⟨1, "image", "data:image/png;base64,AA", "A", none, none, 10⟩]) := by
  decide

/-- C3 amended: after creating A then B then C with strictly increasing
stored timestamps, `list()` returns [C, B, A] (the order being derived
from the timestamps by the query, not from insertion order), and the
in-memory list obtained by prepending on each successful create mirrors
the store listing. -/
theorem history_newest_first_amended
    (n tA tB tC : Nat) (bA bB bC : CreateBody)
    (hA1 : bA.rtype ≠ "") (hA2 : bA.data ≠ "") (hA3 : bA.prompt ≠ "")
    (hA4 : bA.sources = none)
    (hB1 : bB.rtype ≠ "") (hB2 : bB.data ≠ "") (hB3 : bB.prompt ≠ "")
    (hB4 : bB.sources = none)
    (hC1 : bC.rtype ≠ "") (hC2 : bC.data ≠ "") (hC3 : bC.prompt ≠ "")
    (hC4 : bC.sources = none)
    (hab : tA < tB) (hbc : tB < tC) :
    (let s1 := clientCreate ⟨[], n⟩ [] bA tA
     let s2 := clientCreate s1.1 s1.2 bB tB
     let s3 := clientCreate s2.1 s2.2 bC tC
     serverList s3.1
       = [⟨n + 2, bC.rtype, bC.data, bC.prompt, bC.text, none, tC⟩,
          ⟨n + 1, bB.rtype, bB.data, bB.prompt, bB.text, none, tB⟩,
          ⟨n, bA.rtype, bA.data, bA.prompt, bA.text, none, tA⟩] ∧
      s3.2 = (serverList s3.1).map rowToResult) := by
  simp [clientCreate, serverCreate, serverList, sortTsDesc, insertByTs,
    rowToResult, savedToResult, hA1, hA2, hA3, hA4, hB1, hB2, hB3, hB4,
    hC1, hC2, hC3, hC4, hab, hbc]

/-- Witness for the amended C3 at timestamps 1 < 2 < 3. -/
theorem history_newest_first_amended_witness :
    bodyA.rtype ≠ "" ∧ bodyA.data ≠ "" ∧ bodyA.prompt ≠ "" ∧
    bodyA.sources = none ∧ bodyB.sources = none ∧ bodyC.sources = none ∧
    (1 : Nat) < 2 ∧ (2 : Nat) < 3 ∧
    (let s1 := clientCreate ⟨[], 1⟩ [] bodyA 1
     let s2 := clientCreate s1.1 s1.2 bodyB 2
     let s3 := clientCreate s2.1 s2.2 bodyC 3
     serverList s3.1
       = [⟨3, bodyC.rtype, bodyC.data, bodyC.prompt, bodyC.text, none, 3⟩,
          ⟨2, bodyB.rtype, bodyB.data, bodyB.prompt, bodyB.text, none, 2⟩,
          ⟨1, bodyA.rtype, bodyA.data, bodyA.prompt, bodyA.text, none, 1⟩] ∧
      s3.2 = (serverList s3.1).map rowToResult) :=
  ⟨by decide, by decide, by decide, rfl, rfl, rfl, by decide, by decide,
    history_newest_first_amended 1 1 2 3 bodyA bodyB bodyC
      (by decide) (by decide) (by decide) rfl
      (by decide) (by decide) (by decide) rfl
      (by decide) (by decide) (by decide) rfl
      (by decide) (by decide)⟩

/-! ## C4: the store rejects the empty data of text-only results -/

/-- Fixture: the create body of a text-only research result (empty durable
asset, populated text, one citation). -/
def researchBody : CreateBody :=
  ⟨"research", "", "AI trends", some "T", some [⟨"a", some "http://x"⟩]⟩

/-- C4: the server-side create rejects a text-only record whose `data` is
the empty string — `!data` is true for "" — answering 400
"Missing required fields" and persisting nothing, so the create-and-prepend
idiom leaves both the store and the in-memory list unchanged; the claim
(and the interface contract, which allows an empty `data` for text-only
types) says the create succeeds. -/
theorem empty_data_create_rejected :
    serverCreate storeEmpty 7 researchBody
      = (storeEmpty, Except.error "Missing required fields") ∧
    clientCreate storeEmpty [] researchBody 7 = (storeEmpty, []) :=
  ⟨rfl, rfl⟩

/-! ## C5: credential expiry is distinguished only by the video operation -/

/-- Fixture: app state holding an uploaded image and a prompt. -/
def stImage : AppState :=
  ⟨"add sepia tone", some ⟨"IMGDATA", "image/png"⟩, none, true, [], none⟩

/-- Fixture: an oracle whose image-edit call reports the credential as
not found (the raw provider error, rethrown unchanged by `editImage`). -/
def oracleExpiredEdit : ProviderOracle :=
  { oracleIdle with editResp := Except.error "Requested entity was not found" }

/-- C5 counterexample: the claim says the distinguished expiry error is
raised for every gateway operation; but for image-edit the raw provider
error propagates unmapped, so the generic failure message is shown and the
cached credential flag is left set. -/
theorem expiry_not_distinguished_for_image_edit :
    (handleGenerate Mode.imageEdit stImage envFull oracleExpiredEdit
        storeEmpty blobsEmpty 0).state.error
      = some "Generation failed. Please try again." ∧
    (handleGenerate Mode.imageEdit stImage envFull oracleExpiredEdit
        storeEmpty blobsEmpty 0).state.error
      ≠ some "API Key expired or invalid. Please select a valid paid project key." ∧
    (handleGenerate Mode.imageEdit stImage envFull oracleExpiredEdit
        storeEmpty blobsEmpty 0).state.hasKey = true := by
  decide

/-- C5 amended: when the video-generation call reports the credential as
not found, the error is mapped to `API_KEY_EXPIRED`; the handler then
clears the cached credential flag, shows the expiry-specific message (not
the generic one), persists no record and leaves the in-memory history
unchanged. Only the video operation performs this mapping. -/
theorem video_expiry_clears_key_and_persists_nothing
    (st : AppState) (env : Env) (p : ProviderOracle) (store : Store)
    (blobs : BlobStore) (now : Nat) (e : String)
    (hprompt : st.prompt ≠ "")
    (hkey : st.hasKey = true)
    (henv : optStrTruthy env.geminiApiKey = true)
    (hissue : p.videoIssue = Except.error e)
    (hmsg : strIncludes e "Requested entity was not found" = true) :
    (handleGenerate Mode.videoGen st env p store blobs now).state.hasKey
      = false ∧
    (handleGenerate Mode.videoGen st env p store blobs now).state.error
      = some "API Key expired or invalid. Please select a valid paid project key." ∧
    (handleGenerate Mode.videoGen st env p store blobs now).store = store ∧
    (handleGenerate Mode.videoGen st env p store blobs now).state.results
      = st.results ∧
    (handleGenerate Mode.videoGen st env p store blobs now).trace
      = [NetEvent.providerCall "generateVideos"] := by
  simp [handleGenerate, validateInputs, promptRequired, imageRequired,
    audioRequired, runTry, dispatch, generateVideoModel, videoCatch,
    hprompt, hkey, henv, hissue, hmsg]

/-- Fixture: an oracle whose video issuance reports the credential as not
found. -/
def oracleExpiredVideo : ProviderOracle :=
  { oracleIdle with
      videoIssue := Except.error "Requested entity was not found" }

/-- Fixture: app state with a prompt only. -/
def stPrompt : AppState := ⟨"a neon city", none, none, true, [], none⟩

/-- Witness for the amended C5: a concrete video run hitting expiry. -/
theorem video_expiry_clears_key_witness :
    stPrompt.prompt ≠ "" ∧ stPrompt.hasKey = true ∧
    optStrTruthy envFull.geminiApiKey = true ∧
    strIncludes "Requested entity was not found"
      "Requested entity was not found" = true ∧
    ((handleGenerate Mode.videoGen stPrompt envFull oracleExpiredVideo
        storeEmpty blobsEmpty 0).state.hasKey = false ∧
      (handleGenerate Mode.videoGen stPrompt envFull oracleExpiredVideo
        storeEmpty blobsEmpty 0).state.error
        = some "API Key expired or invalid. Please select a valid paid project key." ∧
      (handleGenerate Mode.videoGen stPrompt envFull oracleExpiredVideo
        storeEmpty blobsEmpty 0).store = storeEmpty ∧
      (handleGenerate Mode.videoGen stPrompt envFull oracleExpiredVideo
        storeEmpty blobsEmpty 0).state.results = stPrompt.results ∧
      (handleGenerate Mode.videoGen stPrompt envFull oracleExpiredVideo
        storeEmpty blobsEmpty 0).trace
        = [NetEvent.providerCall "generateVideos"]) :=
  ⟨by decide, rfl, rfl, by decide,
    video_expiry_clears_key_and_persists_nothing stPrompt envFull
      oracleExpiredVideo storeEmpty blobsEmpty 0
      "Requested entity was not found" (by decide) rfl rfl rfl (by decide)⟩

/-! ## C6: citations lacking a uri are dropped, but nothing is persisted -/

/-- Fixture: a grounding chunk carrying a web uri. -/
def chunkWithUri : Chunk := ⟨some ⟨some "a", some "http://x"⟩⟩

/-- Fixture: a grounding chunk missing the web uri. -/
def chunkNoUri : Chunk := ⟨some ⟨some "b", none⟩⟩

/-- Fixture: a research response with text T and the two chunks above. -/
def researchResp2 : ProviderResponse :=
  ⟨[], some "T", some [chunkWithUri, chunkNoUri]⟩

/-- Fixture: app state submitting the research prompt. -/
def stResearch : AppState := ⟨"AI trends", none, none, true, [], none⟩

/-- Fixture: an oracle answering the two-citation research response. -/
def oracleResearch : ProviderOracle :=
  { oracleIdle with researchResp := Except.ok researchResp2 }

/-- C6: the research gateway does drop the citation lacking a uri (the
returned list has exactly the one sourced entry), but the end-to-end run
persists nothing at all: the text-only record is sent with an empty `data`
field, the store rejects it, and the run ends with the store untouched, no
history entry and no surfaced error — whereas the claim says the persisted
sources list has exactly one entry. -/
theorem research_sources_filtered_but_not_persisted :
    researchModel (Except.ok researchResp2)
      = Except.ok ("T", [⟨"a", some "http://x"⟩]) ∧
    (handleGenerate Mode.research stResearch envFull oracleResearch
        storeEmpty blobsEmpty 0).store = storeEmpty ∧
    (handleGenerate Mode.research stResearch envFull oracleResearch
        storeEmpty blobsEmpty 0).state.results = [] ∧
    (handleGenerate Mode.research stResearch envFull oracleResearch
        storeEmpty blobsEmpty 0).state.error = none ∧
    (handleGenerate Mode.research stResearch envFull oracleResearch
        storeEmpty blobsEmpty 0).trace
      = [NetEvent.providerCall "researchWithSearch", NetEvent.storeCreate] := by
  refine ⟨rfl, ?_, ?_, ?_, ?_⟩ <;> rfl

/-! ## C7: the materializer is idempotent and only fetches video blobs -/

/-- C7: materializing an already-durable reference (anything not carrying
the `blob:` scheme) is a pass-through with no fetch, so doing it twice
yields byte-identical output; non-video modes never fetch at all; and a
video `blob:` reference is fetched from the session registry and
re-encoded to a data URI, which is itself a fixed point of
materialization and is distinct from the transient reference (the blob
url is never what gets persisted). -/
theorem materializer_idempotent :
    (∀ (mode : Mode) (blobs : BlobStore) (u : String),
      jsStartsWith u "blob:" = false →
      materializeData mode blobs (some u) = Except.ok (u, [])) ∧
    (∀ (mode : Mode) (blobs : BlobStore) (u : String),
      mode ≠ Mode.videoGen →
      materializeData mode blobs (some u) = Except.ok (u, [])) ∧
    (∀ (blobs blobs2 : BlobStore) (u : String) (bytes : List Nat)
        (mime : String),
      jsStartsWith u "blob:" = true →
      blobLookup blobs u = some (bytes, mime) →
      materializeData Mode.videoGen blobs (some u)
        = Except.ok (dataUriStr mime (b64encode bytes),
            [NetEvent.blobFetch u]) ∧
      materializeData Mode.videoGen blobs2
          (some (dataUriStr mime (b64encode bytes)))
        = Except.ok (dataUriStr mime (b64encode bytes), []) ∧
      dataUriStr mime (b64encode bytes) ≠ u) := by
  refine ⟨?_, ?_, ?_⟩
  · intro mode blobs u h
    simp [materializeData, h, jsOrStr_some_empty]
  · intro mode blobs u h
    simp [materializeData, h, jsOrStr_some_empty]
  · intro blobs blobs2 u bytes mime hblob hlook
    have hne : u ≠ "" := blob_ne_empty u hblob
    have htr : optStrTruthy (some u) = true := by
      simp [optStrTruthy, strTruthy, hne]
    have hnb := dataUri_not_blob mime (b64encode bytes)
    refine ⟨?_, ?_, ?_⟩
    · simp [materializeData, hblob, htr, hlook]
    · simp [materializeData, hnb, jsOrStr_some_empty]
    · intro heq
      rw [heq, hblob] at hnb
      cases hnb

/-- Fixture: a blob registry holding one video blob. -/
def blobsOne : BlobStore := ⟨[("blob:vid-0", [77, 97, 110], "video/mp4")]⟩

/-- Witness for C7: a durable data URI passes through unchanged, and the
registered video blob is re-encoded once and stable afterwards. -/
theorem materializer_idempotent_witness :
    jsStartsWith "data:image/png;base64,AA" "blob:" = false ∧
    materializeData Mode.imageEdit blobsEmpty
        (some "data:image/png;base64,AA")
      = Except.ok ("data:image/png;base64,AA", []) ∧
    (materializeData Mode.videoGen blobsOne (some "blob:vid-0")
        = Except.ok (dataUriStr "video/mp4" (b64encode [77, 97, 110]),
            [NetEvent.blobFetch "blob:vid-0"]) ∧
      materializeData Mode.videoGen blobsEmpty
          (some (dataUriStr "video/mp4" (b64encode [77, 97, 110])))
        = Except.ok (dataUriStr "video/mp4" (b64encode [77, 97, 110]), []) ∧
      dataUriStr "video/mp4" (b64encode [77, 97, 110]) ≠ "blob:vid-0") :=
  ⟨by decide,
    materializer_idempotent.1 Mode.imageEdit blobsEmpty
      "data:image/png;base64,AA" (by decide),
    materializer_idempotent.2.2 blobsOne blobsEmpty "blob:vid-0"
      [77, 97, 110] "video/mp4" (by decide) rfl⟩

/-! ## C8: deleting an absent identifier is a silent no-op -/

/-- C8: for an identifier present neither in the store nor in the
in-memory list, `deleteHistoryItem` answers success without raising, the
store is unchanged (the SQL delete matches nothing) and the in-memory
list is unchanged (the filter removes nothing). -/
theorem delete_missing_id_noop
    (store : Store) (results : List GenerationResult) (id : Nat)
    (hs : ∀ r ∈ store.rows, r.id ≠ id)
    (hm : ∀ g ∈ results, g.id ≠ some id) :
    deleteHistoryItemModel store results id = (store, results, true) := by
  obtain ⟨rows, nid⟩ := store
  have h1 : rows.filter (fun r => decide (r.id ≠ id)) = rows :=
    List.filter_eq_self.mpr (fun a ha => by simpa using hs a ha)
  have h2 : results.filter (fun g => decide (g.id ≠ some id)) = results :=
    List.filter_eq_self.mpr (fun a ha => by simpa using hm a ha)
  simp [deleteHistoryItemModel, serverDelete, h1, h2]
  exact ⟨fun a ha => hs a ha, fun a ha => hm a ha⟩

/-- Fixture: a store holding a single row with id 1. -/
def storeOne : Store :=
  ⟨[⟨1, "image", "data:image/png;base64,AA", "A", none, none, 1⟩], 2⟩

/-- Fixture: the in-memory list mirroring `storeOne`. -/
def resultsOne : List GenerationResult :=
  [⟨some 1, "image", "data:image/png;base64,AA", "A", none, none⟩]

/-- Witness for C8: deleting id 99, which is nowhere present. -/
theorem delete_missing_id_noop_witness :
    (∀ r ∈ storeOne.rows, r.id ≠ 99) ∧
    (∀ g ∈ resultsOne, g.id ≠ some 99) ∧
    deleteHistoryItemModel storeOne resultsOne 99
      = (storeOne, resultsOne, true) :=
  ⟨by decide, by decide,
    delete_missing_id_noop storeOne resultsOne 99 (by decide) (by decide)⟩

/-! ## C9: list failures are silent; success fully replaces the list -/

/-- C9 counterexample: the claim says a recoverable error is surfaced when
`list()` fails, but the handler surfaces nothing at all: on a non-ok
status (and likewise on a network exception, where only a console
diagnostic is emitted) the error banner stays empty while the previous
snapshot is preserved. -/
theorem list_failure_surfaces_no_error :
    (fetchHistoryModel resultsOne none (some (false, []))).2 = none ∧
    (fetchHistoryModel resultsOne none none).2 = none ∧
    (fetchHistoryModel resultsOne none (some (false, []))).1 = resultsOne ∧
    (fetchHistoryModel resultsOne none none).1 = resultsOne :=
  ⟨rfl, rfl, rfl, rfl⟩

/-- C9 amended: when the history fetch fails — a network exception
(`none`) or a non-ok status — the previous in-memory snapshot and the
error banner are left exactly as they were: the failure is non-fatal but
silent, no error is surfaced to the UI (at most a console diagnostic on an
exception); on success the in-memory list is wholly rebuilt from the
fetched rows, independently of the previous snapshot (replace, not
merge). -/
theorem list_failure_preserves_snapshot :
    (∀ (prev : List GenerationResult) (err : Option String),
      fetchHistoryModel prev err none = (prev, err)) ∧
    (∀ (prev : List GenerationResult) (err : Option String)
        (rows : List Row),
      fetchHistoryModel prev err (some (false, rows)) = (prev, err)) ∧
    (∀ (prev : List GenerationResult) (err : Option String)
        (rows : List Row),
      fetchHistoryModel prev err (some (true, rows))
        = (rows.map rowToResult, err)) ∧
    (∀ (prev1 prev2 : List GenerationResult) (err : Option String)
        (rows : List Row),
      fetchHistoryModel prev1 err (some (true, rows))
        = fetchHistoryModel prev2 err (some (true, rows))) :=
  ⟨fun _ _ => rfl, fun _ _ _ => rfl, fun _ _ _ => rfl, fun _ _ _ _ => rfl⟩

/-! ## C10: a missing GEMINI_API_KEY env var fails generation outright -/

/-- When the required input of a mode is present, the validation ladder
passes. -/
lemma validateInputs_of_present (mode : Mode) (st : AppState)
    (h : requiredInputMissing mode st = false) :
    validateInputs mode st = none := by
  cases mode <;>
    simp [requiredInputMissing, promptRequired, imageRequired,
      audioRequired, Option.isNone_iff_eq_none,
      Option.isSome_iff_ne_none] at h <;>
    simp [validateInputs, promptRequired, imageRequired, audioRequired, h]

/-- C10: whatever the mode, if `process.env.GEMINI_API_KEY` is falsy at
generation time the try block throws before any provider or store call:
the generic failure message is shown, nothing is persisted and the history
is untouched — even though `getApiKey` (which every gateway call would
use) prefers a locally saved non-empty key over the env variables, that
saved key is never consulted by this check. -/
theorem missing_env_key_fails_before_provider
    (mode : Mode) (st : AppState) (env : Env) (p : ProviderOracle)
    (store : Store) (blobs : BlobStore) (now : Nat)
    (hvalid : requiredInputMissing mode st = false)
    (hflow : mode = Mode.videoGen →
      (st.hasKey = true ∨ p.keyDialogSelected = true))
    (henv : optStrTruthy env.geminiApiKey = false) :
    ((handleGenerate mode st env p store blobs now).trace = [] ∧
      (handleGenerate mode st env p store blobs now).store = store ∧
      (handleGenerate mode st env p store blobs now).state.error
        = some "Generation failed. Please try again." ∧
      (handleGenerate mode st env p store blobs now).state.results
        = st.results) ∧
    (∀ (k : String) (a g : Option String), k ≠ "" →
      getApiKey (some k) a g = k) := by
  refine ⟨?_, fun k a g hk => by simp [getApiKey, hk]⟩
  have hv := validateInputs_of_present mode st hvalid
  by_cases hm : mode = Mode.videoGen
  · subst hm
    by_cases hk : st.hasKey
    · simp [handleGenerate, hv, hk, runTry, henv]
    · have hsel : p.keyDialogSelected = true := by
        rcases hflow rfl with h1 | h1
        · exact absurd h1 hk
        · exact h1
      simp [handleGenerate, hv, hk, hsel, runTry, henv]
  · simp [handleGenerate, hv, hm, runTry, henv]

/-- Fixture: an environment with a saved local key and `API_KEY`, but no
`GEMINI_API_KEY`. -/
def envNoGemini : Env := ⟨some "SAVED", some "AK", none⟩

/-- Witness for C10: generate-image with a prompt, a saved key present but
the env variable absent. -/
theorem missing_env_key_fails_before_provider_witness :
    requiredInputMissing Mode.generateImage stPrompt = false ∧
    optStrTruthy envNoGemini.geminiApiKey = false ∧
    (((handleGenerate Mode.generateImage stPrompt envNoGemini oracleIdle
          storeEmpty blobsEmpty 0).trace = [] ∧
      (handleGenerate Mode.generateImage stPrompt envNoGemini oracleIdle
          storeEmpty blobsEmpty 0).store = storeEmpty ∧
      (handleGenerate Mode.generateImage stPrompt envNoGemini oracleIdle
          storeEmpty blobsEmpty 0).state.error
        = some "Generation failed. Please try again." ∧
      (handleGenerate Mode.generateImage stPrompt envNoGemini oracleIdle
          storeEmpty blobsEmpty 0).state.results = stPrompt.results) ∧
    (∀ (k : String) (a g : Option String), k ≠ "" →
      getApiKey (some k) a g = k)) :=
  ⟨by decide, rfl,
    missing_env_key_fails_before_provider Mode.generateImage stPrompt
      envNoGemini oracleIdle storeEmpty blobsEmpty 0 (by decide)
      (fun h => by cases h) rfl⟩

end Lumina
